import Mathlib

/-!
Verification of the client-search application (`src/clientinfoam.py`).

The development is a shallow embedding of the program's pure logic:

* Cell values (`Value`) are a tagged variant covering the value shapes the
  program handles: strings, Python ints, Python floats, pandas Timestamps,
  pandas `NaT`, and null (`None`/`NaN` merged, as both fail `pd.notna`).
* Python floats are modelled as exact decimals `Dec` (mantissa / 10 ^ exponent).
  This is exact for every numeric literal appearing in the program and in the
  properties checked here (binary rounding artefacts of IEEE doubles are out of
  scope and noted where relevant).
* `safe_get` (source lines 5-23) is embedded as a function returning the
  produced value together with the list of diagnostic messages it appends to
  `st.session_state.debug_issues`; state passing is made explicit.
* The coercion callables actually passed to `safe_get` in the source are
  enumerated by `Convert`: the builtins `float` and `int` (the pair tested by
  `convert in (float, int)` on line 12), the Delay Days lambda (line 111) and
  the Birthdate `pd.to_datetime(x, errors='coerce')` lambda (line 109).
  A raised `ValueError`/`TypeError` is modelled as `Option.none`.
* String parsing helpers (`parseFloat`, `parseIntStr`, `parseISO`) model the
  Python/pandas parsers on the value shapes the program feeds them: plain
  decimal notation for `float`/`int` (scientific notation, underscores,
  `inf`/`nan` and surrounding whitespace are out of scope) and ISO
  `YYYY-MM-DD` dates for `pd.to_datetime` (other date formats accepted by
  pandas are out of scope; every non-ISO string is coerced to `NaT`, which is
  what `errors='coerce'` produces for the strings considered here).
* Python's `str.isdigit` and numeric parsing accept Unicode digits, not just
  0-9: `pyDigitVal`/`pyIsDigit` model this with exemplar ranges (ASCII,
  Arabic-Indic and Devanagari decimals for the parsers; the superscripts
  `¹²³` for the `isdigit`-only characters that make `float()` raise).
* `pd.NaT` is truthy (`NaTType` defines no `__bool__`) and its `strftime`
  raises `ValueError`, so an unparseable Birthdate string crashes the
  Birthdate display line; `birthdateDisplay`/`clientDetailsPass` carry this
  uncaught-exception outcome explicitly (`BirthOut`/`PassOut`).
* The tab-2 render pass (lines 66-121) is `renderTab2`: dropdown population
  (`available_names`, line 71), the name filter (lines 82-88, `selectRow`),
  the debug-issues drain (lines 93-98) and the Client Details extraction pass
  (lines 101-121, `clientDetailsPass`).  An uncaught Python exception
  (`KeyError` from a missing `'Name'` column, `ValueError` from
  `NaT.strftime`) is an `Except.error` carrying the session state the dying
  run leaves behind.
* `pandas.Series.str.contains` is called with its default `regex=True`
  (line 83), so the selected name is interpreted as a regular expression.
  `searchCI` models `re.search` with `re.IGNORECASE` for patterns whose only
  metacharacter is `.` (the wildcard); all queries considered in the theorems
  are in this fragment.
-/

/-- A single quote character, used when assembling diagnostic messages
(`safe_get` interpolates the field name between single quotes). -/
def sglq : String := String.singleton (Char.ofNat 39)

/-- Exact decimal number `m / 10 ^ e`: the model of a Python float.  Not kept
normalised; `floatRepr` strips trailing zeros when rendering, like `str`. -/
structure Dec where
  m : Int
  e : Nat
deriving DecidableEq, Repr

/-- A cell / scalar value as handled by the program.  `noneV` covers both
`None` and float `NaN` (both are rejected by `pd.notna`); `natT` is pandas
`NaT`, produced by `pd.to_datetime(_, errors='coerce')` on parse failure. -/
inductive Value where
  | strV (s : String)
  | intV (n : Int)
  | floatV (d : Dec)
  | dateV (y m d : Nat)
  | natT
  | noneV
deriving DecidableEq, Repr

/-- The coercion callables passed to `safe_get` in the source: builtin
`float`, builtin `int` (together they form the `convert in (float, int)` test
on line 12), the Delay Days lambda (line 111), and the Birthdate
`pd.to_datetime(x, errors='coerce')` lambda (line 109).  A call with no
coercion is `Option.none` at use sites (Python default `convert=None`). -/
inductive Convert where
  | floatC
  | intC
  | delayDaysC
  | toDatetimeC
deriving DecidableEq, Repr

/-- A record (pandas `Series` produced by `df.iloc[0]`): an association list
from column names to cell values.  Column names are unique per table. -/
abbrev Record := List (String × Value)

/-- The in-memory table (pandas `DataFrame`): column names plus rows. -/
structure DataFrame where
  cols : List String
  rows : List Record
deriving DecidableEq, Repr

/-- `df.empty`: true iff the frame has zero rows or zero columns. -/
def DataFrame.isEmpty (df : DataFrame) : Bool :=
  df.rows.isEmpty || df.cols.isEmpty

/-- The session state the tab-2 render pass reads and writes:
`st.session_state.masterlist` and `st.session_state.debug_issues`. -/
structure AppState where
  masterlist : DataFrame
  debug_issues : List String
deriving DecidableEq, Repr

/-- Split a character list at every occurrence of `sep` (the list-level
counterpart of `str.split(sep)`), used to model decimal and date parsing. -/
def splitChar (sep : Char) : List Char → List (List Char)
  | [] => [[]]
  | c :: rest =>
    if c = sep then [] :: splitChar sep rest
    else
      match splitChar sep rest with
      | [] => [[c]]
      | p :: ps => (c :: p) :: ps

/-- Decimal value of one character as Python's numeric parsers accept it:
`float("٣") = 3.0` and `int("٣") = 3`, because Unicode decimal digits
(category Nd) carry a digit value.  Modelled ranges: ASCII 0-9, Arabic-Indic
U+0660-0669 and Devanagari U+0966-096F; the remaining Nd ranges behave
identically and are out of scope. -/
def pyDigitVal (c : Char) : Option Nat :=
  if c.isDigit then some (c.toNat - 48)
  else if 0x660 ≤ c.toNat ∧ c.toNat ≤ 0x669 then some (c.toNat - 0x660)
  else if 0x966 ≤ c.toNat ∧ c.toNat ≤ 0x96F then some (c.toNat - 0x966)
  else none

/-- One character of Python's `str.isdigit`: every decimal digit, plus
digit-like characters without a decimal value — superscripts `¹²³` are the
modelled exemplars — which `isdigit` accepts but `float()` rejects. -/
def pyIsDigit (c : Char) : Bool :=
  (pyDigitVal c).isSome
    || c.toNat == 0xB2 || c.toNat == 0xB3 || c.toNat == 0xB9

/-- A character `float()`/`int()` accept as a digit. -/
def pyIsDecDigit (c : Char) : Bool :=
  (pyDigitVal c).isSome

/-- Numeric value of a list of decimal digit characters (in the
`pyDigitVal` sense). -/
def digitsVal (cs : List Char) : Nat :=
  cs.foldl (fun a c => 10 * a + (pyDigitVal c).getD 0) 0

/-- Decimal rendering of `n` left-padded with zeros to width `w`. -/
def padNum (w : Nat) (n : Nat) : String :=
  let s := toString n
  String.mk (List.replicate (w - s.length) '0') ++ s

/-- Insert a comma after every group of three characters of a reversed digit
list (helper for Python's `,` format specifier). -/
def addCommas : List Char → List Char
  | a :: b :: c :: rest =>
    if rest.isEmpty then [a, b, c] else a :: b :: c :: ',' :: addCommas rest
  | l => l

/-- Thousands-grouped decimal rendering of a natural number (`f"{n:,}"`). -/
def groupNat (n : Nat) : String :=
  String.mk (addCommas (toString n).data.reverse).reverse

/-- Thousands-grouped rendering of an integer (`f"{n:,}"` on a Python int). -/
def formatInt (n : Int) : String :=
  (if n < 0 then "-" else "") ++ groupNat n.natAbs

/-- Round `a / b` (with `b > 0`) to the nearest integer, ties to even: the
rounding Python's `format` applies.  Python rounds the underlying binary
double; this is exact for the decimal values considered here. -/
def rheDiv (a : Int) (b : Nat) : Int :=
  let q := Int.fdiv a b
  let r := a - q * b
  if 2 * r < (b : Int) then q
  else if (b : Int) < 2 * r then q + 1
  else if q % 2 = 0 then q else q + 1

/-- `f"{x:,.2f}"`: thousands-grouped, exactly two fractional digits
(source line 13, the `isinstance(converted_value, float)` branch). -/
def formatFloat2 (d : Dec) : String :=
  let cents : Int :=
    if d.e ≤ 2 then d.m * ((10 : Nat) ^ (2 - d.e) : Nat)
    else rheDiv (d.m * 100) (10 ^ (d.e - 2))
  let sign := if cents < 0 then "-" else ""
  sign ++ groupNat (cents.natAbs / 100) ++ "." ++ padNum 2 (cents.natAbs % 100)

/-- Remove trailing decimal zeros from a decimal representation (fuel is the
exponent); helper for `floatRepr`. -/
def stripZeros : Nat → Int → Nat → Int × Nat
  | 0, m, e => (m, e)
  | fuel + 1, m, e =>
    if e = 0 then (m, 0)
    else if m % 10 = 0 then stripZeros fuel (Int.tdiv m 10) (e - 1)
    else (m, e)

/-- `str` applied to a Python float: shortest decimal form, always with at
least one fractional digit (`str(12.0) = "12.0"`, `str(12.5) = "12.5"`). -/
def floatRepr (d : Dec) : String :=
  let p := stripZeros d.e d.m d.e
  let sign := if p.1 < 0 then "-" else ""
  let a := p.1.natAbs
  if p.2 = 0 then sign ++ toString a ++ ".0"
  else sign ++ toString (a / 10 ^ p.2) ++ "." ++ padNum p.2 (a % 10 ^ p.2)

/-- Parse an unsigned decimal literal (digits with at most one point, at
least one digit in total), the body of Python's `float` parser on the plain
decimal strings the program feeds it. -/
def parseUFloat (cs : List Char) : Option Dec :=
  match splitChar '.' cs with
  | [a] =>
    if !a.isEmpty && a.all pyIsDecDigit then some ⟨digitsVal a, 0⟩ else none
  | [a, b] =>
    if !(a.isEmpty && b.isEmpty) && a.all pyIsDecDigit && b.all pyIsDecDigit then
      some ⟨digitsVal a * 10 ^ b.length + digitsVal b, b.length⟩
    else none
  | _ => none

/-- Python `float(s)` on a string (plain decimal notation; an optional
leading sign).  `Option.none` models a raised `ValueError`. -/
def parseFloat (s : String) : Option Dec :=
  match s.data with
  | '-' :: rest => (parseUFloat rest).map (fun d => ⟨-d.m, d.e⟩)
  | '+' :: rest => parseUFloat rest
  | cs => parseUFloat cs

/-- Python `int(s)` on a string: an optional sign followed by digits only
(`int("12.0")` raises, unlike `int(12.0)`). -/
def parseIntStr (s : String) : Option Int :=
  match s.data with
  | '-' :: rest =>
    if !rest.isEmpty && rest.all pyIsDecDigit then some (-(digitsVal rest : Int))
    else none
  | '+' :: rest =>
    if !rest.isEmpty && rest.all pyIsDecDigit then some (digitsVal rest : Int)
    else none
  | cs =>
    if !cs.isEmpty && cs.all pyIsDecDigit then some (digitsVal cs : Int) else none

/-- Truncation toward zero of a decimal, as Python's `int` applied to a
float (`int(12.9) = 12`). -/
def Dec.trunc (d : Dec) : Int :=
  Int.tdiv d.m ((10 : Nat) ^ d.e : Nat)

/-- Number of days in a month (proleptic Gregorian, as pandas validates). -/
def daysInMonth (y m : Nat) : Nat :=
  if m = 2 then
    if y % 4 = 0 && (y % 100 != 0 || y % 400 = 0) then 29 else 28
  else if m = 4 || m = 6 || m = 9 || m = 11 then 30
  else 31

/-- Parse an ISO `YYYY-MM-DD` date with calendar validation: the fragment of
the pandas date parser exercised by the program's data (the date parser is
kept ASCII-only; non-ASCII-digit date strings coerce to `NaT`). -/
def parseISO (s : String) : Option (Nat × Nat × Nat) :=
  match splitChar '-' s.data with
  | [ys, ms, ds] =>
    if !ys.isEmpty && ys.all Char.isDigit && !ms.isEmpty && ms.all Char.isDigit
        && !ds.isEmpty && ds.all Char.isDigit then
      let y := digitsVal ys
      let m := digitsVal ms
      let d := digitsVal ds
      if 1 ≤ m && m ≤ 12 && 1 ≤ d && d ≤ daysInMonth y m then some (y, m, d)
      else none
    else none
  | _ => none

/-- `Timestamp.strftime('%Y-%m-%d')` rendering: zero-padded ISO date. -/
def formatYMD (y m d : Nat) : String :=
  padNum 4 y ++ "-" ++ padNum 2 m ++ "-" ++ padNum 2 d

/-- Python `str` on a cell value (the f-string rendering on lines 106-121).
A Timestamp renders with its midnight time part, `None` and `NaN` are merged
(see `Value`). -/
def pyStr (v : Value) : String :=
  match v with
  | Value.strV s => s
  | Value.intV n => toString n
  | Value.floatV d => floatRepr d
  | Value.dateV y m d => formatYMD y m d ++ " 00:00:00"
  | Value.natT => "NaT"
  | Value.noneV => "None"

/-- `pd.notna` (source line 8): false exactly on null (`None`/`NaN`) and
`NaT` values. -/
def notna (v : Value) : Bool :=
  match v with
  | Value.noneV => false
  | Value.natT => false
  | _ => true

/-- Python truthiness of a cell value (the `if safe_get(...)` test on
line 109): empty string, zero and `None` are falsy; a Timestamp is truthy;
and `pd.NaT` is TRUTHY — `NaTType` defines no `__bool__` and `datetime`
instances are always truthy, so `bool(pd.NaT)` is `True`. -/
def pyTruthy (v : Value) : Bool :=
  match v with
  | Value.strV s => !(s == "")
  | Value.intV n => !(n == 0)
  | Value.floatV d => !(d.m == 0)
  | Value.dateV _ _ _ => true
  | Value.natT => true
  | Value.noneV => false

/-- Builtin `float` applied to a cell value; `none` is a raised
`ValueError`/`TypeError` (e.g. on a Timestamp or a non-numeric string). -/
def pyFloat (v : Value) : Option Value :=
  match v with
  | Value.intV n => some (Value.floatV ⟨n, 0⟩)
  | Value.floatV d => some (Value.floatV d)
  | Value.strV s => (parseFloat s).map Value.floatV
  | _ => none

/-- Builtin `int` applied to a cell value; `none` is a raised error. -/
def pyInt (v : Value) : Option Value :=
  match v with
  | Value.intV n => some (Value.intV n)
  | Value.floatV d => some (Value.intV d.trunc)
  | Value.strV s => (parseIntStr s).map Value.intV
  | _ => none

/-- The guard `str(x).replace('.','').isdigit()` of the Delay Days lambda
(line 111): after removing every point, the remainder is non-empty and all
`isdigit` characters (in the Unicode sense of `pyIsDigit`, so e.g. "٣" and
"²" pass the guard while "-5" does not). -/
def delayDigits (s : String) : Bool :=
  let t := s.data.filter (fun c => decide (c ≠ '.'))
  !t.isEmpty && t.all pyIsDigit

/-- The Delay Days lambda (line 111):
`lambda x: int(float(str(x)) if str(x).replace('.','').isdigit() else 0)`.
When the guard fails the lambda returns `int 0` without raising; when it
holds, `float(str(x))` itself may still raise (e.g. `"1.2.3"`), which
propagates to `safe_get`'s handler (`none`). -/
def pyDelayDays (v : Value) : Option Value :=
  if delayDigits (pyStr v) then
    (parseFloat (pyStr v)).map (fun d => Value.intV d.trunc)
  else some (Value.intV 0)

/-- Nanoseconds per day, for `pd.to_datetime` on numeric input. -/
def nsPerDay : Int := 86400000000000

/-- Calendar date of epoch day `z0` (days since 1970-01-01, may be
negative), the standard civil-from-days algorithm on the proleptic Gregorian
calendar; years before 1 CE are out of the pandas Timestamp range and
clamped by `toNat`. -/
def civilFromDays (z0 : Int) : Nat × Nat × Nat :=
  let z := z0 + 719468
  let era := z.fdiv 146097
  let doe := (z - era * 146097).toNat
  let yoe := (doe - doe / 1460 + doe / 36524 - doe / 146096) / 365
  let y := era * 400 + yoe
  let doy := doe - (365 * yoe + yoe / 4 - yoe / 100)
  let mp := (5 * doy + 2) / 153
  let d := doy - (153 * mp + 2) / 5 + 1
  let m := if mp < 10 then mp + 3 else mp - 9
  ((if m ≤ 2 then y + 1 else y).toNat, m, d)

/-- The Birthdate lambda (line 109): `pd.to_datetime(x, errors='coerce')`.
With `errors='coerce'` parse failure produces `NaT` instead of raising, so
the result is always `some`.  Strings are parsed as ISO dates (the fragment
modelled here; non-ISO strings coerce to `NaT`); numeric input is an
epoch-nanoseconds offset and yields a Timestamp, of which the model keeps
the calendar date — the only observations the program makes of a converted
Timestamp are truthiness (always true) and `strftime('%Y-%m-%d')`, neither
of which sees the time of day (fractional nanoseconds of a float are
truncated). -/
def pyToDatetime (v : Value) : Option Value :=
  match v with
  | Value.strV s =>
    match parseISO s with
    | some (y, m, d) => some (Value.dateV y m d)
    | none => some Value.natT
  | Value.dateV y m d => some (Value.dateV y m d)
  | Value.intV n =>
    some (Value.dateV (civilFromDays (n.fdiv nsPerDay)).1
      (civilFromDays (n.fdiv nsPerDay)).2.1 (civilFromDays (n.fdiv nsPerDay)).2.2)
  | Value.floatV d =>
    some (Value.dateV (civilFromDays (d.trunc.fdiv nsPerDay)).1
      (civilFromDays (d.trunc.fdiv nsPerDay)).2.1
      (civilFromDays (d.trunc.fdiv nsPerDay)).2.2)
  | _ => some Value.natT

/-- Dispatch of `convert(value)` (line 10) over the coercions used in the
source; `Option.none` at the outer level is the Python default
`convert=None`, i.e. the identity. -/
def applyConvert (convert : Option Convert) (v : Value) : Option Value :=
  match convert with
  | none => some v
  | some Convert.floatC => pyFloat v
  | some Convert.intC => pyInt v
  | some Convert.delayDaysC => pyDelayDays v
  | some Convert.toDatetimeC => pyToDatetime v

/-- Lines 12-13 of `safe_get`: when the coercion is literally builtin `float`
or builtin `int`, format the converted value with thousands grouping (two
fractional digits iff it is a float); otherwise return it unchanged.  The
Delay Days and Birthdate lambdas fail the identity test `convert in
(float, int)` and are therefore never formatted. -/
def applyFormat (convert : Option Convert) (cv : Value) : Value :=
  if convert == some Convert.floatC || convert == some Convert.intC then
    match cv with
    | Value.floatV d => Value.strV (formatFloat2 d)
    | Value.intV n => Value.strV (formatInt n)
    | v => v
  else cv

/-- `f"Missing column '{key}'"` (line 22). -/
def missingMsg (key : String) : String :=
  "Missing column " ++ sglq ++ key ++ sglq

/-- `f"Null value for '{key}'"` (line 19). -/
def nullMsg (key : String) : String :=
  "Null value for " ++ sglq ++ key ++ sglq

/-- `f"Invalid format for '{key}': {value}"` (line 16). -/
def invalidMsg (key : String) (v : Value) : String :=
  "Invalid format for " ++ sglq ++ key ++ sglq ++ ": " ++ pyStr v

/-- `key in row.index` (line 6). -/
def rowHasKey (r : Record) (key : String) : Bool :=
  r.any (fun p => p.1 == key)

/-- `row[key]` (line 7); total by defaulting to null off the happy path
(pandas guarantees every row carries every column of its frame). -/
def rowGet (r : Record) (key : String) : Value :=
  ((r.find? (fun p => p.1 == key)).map Prod.snd).getD Value.noneV

/-- `safe_get(row, key, default, convert)` (lines 5-23), returning the value
together with the diagnostics it appends to `st.session_state.debug_issues`
during the call (in order). -/
def safe_get (row : Option Record) (key : String) (default : Value)
    (convert : Option Convert) : Value × List String :=
  match row with
  | some r =>
    if rowHasKey r key then
      let value := rowGet r key
      if notna value then
        match applyConvert convert value with
        | some cv => (applyFormat convert cv, [])
        | none => (default, [invalidMsg key value])
      else (default, [nullMsg key])
    else (default, [missingMsg key])
  | none => (default, [missingMsg key])

/-- One rendered detail line `f"**{label}:** {safe_get(...)}"`: the string
the f-string interpolates (`str` of the returned value) plus the diagnostics
appended by the call. -/
def dfield (row : Option Record) (key : String) (default : Value)
    (convert : Option Convert) : String × List String :=
  let r := safe_get row key default convert
  (pyStr r.1, r.2)

/-- `strftime('%Y-%m-%d')` on the value returned for Birthdate.  On a
Timestamp it renders the zero-padded ISO date; on `pd.NaT` it RAISES —
`NaTType` stubs `strftime` out with `ValueError("NaTType does not support
strftime")` — modelled as `Except.error`.  (Other shapes would raise
`AttributeError`; they are unreachable behind the truthiness guard, whose
truthy values here are only Timestamps and `NaT`.) -/
def strftimeExc (v : Value) : Except String String :=
  match v with
  | Value.dateV y m d => Except.ok (formatYMD y m d)
  | Value.natT => Except.error "ValueError: NaTType does not support strftime"
  | _ => Except.error "AttributeError: strftime"

/-- What evaluating one display line produced: the rendered text (empty when
the line raised before producing one), the diagnostics appended to the log
before the raise, and the uncaught exception, if any. -/
structure BirthOut where
  text : String
  diags : List String
  exc : Option String
deriving DecidableEq, Repr

/-- The Birthdate display expression (line 109):
`safe_get(...).strftime('%Y-%m-%d') if safe_get(...) else ''`.
Python evaluates the condition's `safe_get` call first and the value's
`safe_get` call only when the condition is truthy, so the missing/null paths
log their diagnostic once while the truthy path calls `safe_get` twice.  A
truthy `NaT` (unparseable Birthdate) reaches `.strftime`, which raises an
uncaught `ValueError` out of the render pass. -/
def birthdateDisplay (row : Option Record) : BirthOut :=
  let c := safe_get row "Birthdate" Value.noneV (some Convert.toDatetimeC)
  if pyTruthy c.1 then
    let v := safe_get row "Birthdate" Value.noneV (some Convert.toDatetimeC)
    match strftimeExc v.1 with
    | Except.ok t => ⟨t, c.2 ++ v.2, none⟩
    | Except.error e => ⟨"", c.2 ++ v.2, some e⟩
  else ⟨"", c.2, none⟩

/-- What the Client Details extraction pass produced: the `(label, text)`
pairs it rendered, the diagnostics it appended (which persist in the session
state even when the pass dies), and the uncaught exception that aborted it,
if any. -/
structure PassOut where
  fields : List (String × String)
  diags : List String
  exc : Option String
deriving DecidableEq, Repr

/-- The Client Details extraction pass (lines 101-121): the fixed field list
run through `safe_get` in source order (column 1 then column 2).  The lines
execute sequentially; if the Birthdate line (the fourth) raises, the three
lines already rendered and the diagnostics already appended stand, and the
remaining lines never run. -/
def clientDetailsPass (row : Option Record) : PassOut :=
  let f1 := dfield row "Name" (Value.strV "") none
  let f2 := dfield row "Account Key" (Value.strV "") none
  let f3 := dfield row "Contract Number" (Value.strV "") none
  let f4 := birthdateDisplay row
  match f4.exc with
  | some e =>
    ⟨[("Name", f1.1), ("Account Key", f2.1), ("Contract Number", f3.1)],
     f1.2 ++ f2.2 ++ f3.2 ++ f4.diags, some e⟩
  | none =>
    let f5 := dfield row "Repayment Cycle" (Value.strV "") none
    let f6 := dfield row "Delay Days" (Value.intV 0) (some Convert.delayDaysC)
    let f7 := dfield row "Currency Code" (Value.strV "") none
    let f8 := dfield row "Total Outstanding" (Value.floatV ⟨0, 1⟩) (some Convert.floatC)
    let f9 := dfield row "Statement Balance" (Value.floatV ⟨0, 1⟩) (some Convert.floatC)
    let f10 := dfield row "Statement Minum Payment" (Value.floatV ⟨0, 1⟩) (some Convert.floatC)
    let f11 := dfield row "Statement Overdue Amount" (Value.floatV ⟨0, 1⟩) (some Convert.floatC)
    let f12 := dfield row "Installment Amount (01)" (Value.floatV ⟨0, 1⟩) (some Convert.floatC)
    let f13 := dfield row "Installment Amount (02)" (Value.floatV ⟨0, 1⟩) (some Convert.floatC)
    let f14 := dfield row "Email (01)" (Value.strV "") none
    let f15 := dfield row "Residence Add" (Value.strV "") none
    ⟨[("Name", f1.1), ("Account Key", f2.1), ("Contract Number", f3.1),
      ("Birthdate", f4.text), ("Repayment Cycle", f5.1), ("Delay Days", f6.1),
      ("Currency Code", f7.1), ("Total Outstanding", f8.1),
      ("Statement Balance", f9.1), ("Statement Minimum Payment", f10.1),
      ("Statement Overdue Amount", f11.1), ("Installment Amount (01)", f12.1),
      ("Installment Amount (02)", f13.1), ("Email (01)", f14.1),
      ("Residence Add", f15.1)],
     f1.2 ++ f2.2 ++ f3.2 ++ f4.diags ++ f5.2 ++ f6.2 ++ f7.2 ++ f8.2 ++ f9.2
       ++ f10.2 ++ f11.2 ++ f12.2 ++ f13.2 ++ f14.2 ++ f15.2, none⟩

/-- Case-insensitive character match of one regex atom against one text
character: `.` is the wildcard (`re.DOTALL` is irrelevant here), anything
else matches its own letter up to case (`re.IGNORECASE`). -/
def patCharMatch (wild : Bool) (p c : Char) : Bool :=
  (wild && p == '.') || p.toLower == c.toLower

/-- Match the whole pattern against a prefix of the text. -/
def matchHere (wild : Bool) : List Char → List Char → Bool
  | [], _ => true
  | _ :: _, [] => false
  | p :: ps, c :: cs => patCharMatch wild p c && matchHere wild ps cs

/-- Scan for a match starting at any position of the text (including its
end, where only the empty pattern matches), i.e. `re.search`. -/
def searchCI (wild : Bool) (pat : List Char) : List Char → Bool
  | [] => matchHere wild pat []
  | c :: cs => matchHere wild pat (c :: cs) || searchCI wild pat cs

/-- `Series.str.contains(pat, case=False, na=False)` elementwise on a string
cell, with the default `regex=True`: a case-insensitive `re.search` of the
pattern, with `.` as a wildcard.  Faithful for patterns whose characters are
all non-metacharacters or `.` (see `isRegexMeta`). -/
def regexSearchCI (pat s : String) : Bool :=
  searchCI true pat.data s.data

/-- Modelled from the spec: "case-insensitive substring containment of
`query` within the Name field" — plain substring search up to case, every
pattern character taken literally.  Kept side by side with `regexSearchCI`
(what the code computes) for the refinement comparison of claim C3. -/
def substringCI (q s : String) : Bool :=
  searchCI false q.data s.data

/-- The characters `re` treats specially outside a character class.  The
regex model `searchCI true` is faithful to `re.search` exactly for patterns
avoiding all of these except `.`. -/
def isRegexMeta (c : Char) : Bool :=
  c == '.' || c == '^' || c == '$' || c == '*' || c == '+' || c == '?'
    || c == '\\' || c == '[' || c == ']' || c == '(' || c == ')' || c == '|'
    || c == Char.ofNat 123 || c == Char.ofNat 125

/-- One row of the boolean mask
`st.session_state.masterlist['Name'].str.contains(active_search, case=False, na=False)`
(line 83): null or non-string Name cells give `NaN`, which `na=False` turns
into no-match. -/
def nameMatches (q : String) (r : Record) : Bool :=
  match rowGet r "Name" with
  | Value.strV s => regexSearchCI q s
  | _ => false

/-- Modelled from the spec: the matching rule of `findFirstByName` — the Name
cell is a string that contains the query as a substring, case-insensitively;
null/absent Names never match. -/
def specNameMatch (q : String) (r : Record) : Bool :=
  match rowGet r "Name" with
  | Value.strV s => substringCI q s
  | _ => false

/-- The filtering step of line 83.  Accessing the `'Name'` column of a frame
that lacks it raises `KeyError`, modelled as `Except.error`. -/
def filterByName (df : DataFrame) (q : String) : Except String (List Record) :=
  if df.cols.contains "Name" then Except.ok (df.rows.filter (nameMatches q))
  else Except.error "KeyError: Name"

/-- Lines 81-88: `row` stays `None` unless the selected name is truthy
(non-empty) and the table is non-empty; otherwise it becomes the first row of
the filtered frame, if any. -/
def selectRow (df : DataFrame) (q : String) : Except String (Option Record) :=
  if q == "" || df.isEmpty then Except.ok none
  else (filterByName df q).map List.head?

/-- `masterlist['Name'].dropna().tolist() if not masterlist.empty else []`
(line 71): the dropdown options.  On a non-empty frame without a `'Name'`
column the column access raises `KeyError`. -/
def available_names (masterlist : DataFrame) : Except String (List Value) :=
  if masterlist.isEmpty then Except.ok []
  else if masterlist.cols.contains "Name" then
    Except.ok ((masterlist.rows.map (fun r => rowGet r "Name")).filter notna)
  else Except.error "KeyError: Name"

/-- The status the upload handler surfaces (lines 46-55): `st.success` on
replacement, `st.warning` on an empty parse, `st.error` (with the cause) when
`pd.read_excel` raised. -/
inductive LoadResult where
  | success
  | emptyInput
  | loadError (msg : String)
deriving DecidableEq, Repr

/-- The upload handler (lines 46-55).  `parsed` is the outcome of
`pd.read_excel` (file I/O itself is external); the `try`/`except` turns any
parse exception into a status, and `st.session_state.masterlist` is replaced
only when the parsed frame is non-empty. -/
def uploadHandler (current : DataFrame) (parsed : Except String DataFrame) :
    DataFrame × LoadResult :=
  match parsed with
  | Except.error e => (current, LoadResult.loadError ("Error loading XLSX: " ++ e))
  | Except.ok df =>
    if df.isEmpty then (current, LoadResult.emptyInput)
    else (df, LoadResult.success)

/-- The freshly initialised `masterlist` (lines 26-33): the 15 schema
columns, zero rows. -/
def initMasterlist : DataFrame :=
  ⟨["Name", "Account Key", "Contract Number", "Birthdate", "Repayment Cycle",
    "Delay Days", "Currency Code", "Total Outstanding", "Statement Balance",
    "Statement Minimum Payment", "Statement Overdue Amount",
    "Installment Amount (01)", "Installment Amount (02)", "Email (01)",
    "Residence Add"], []⟩

/-- What tab 2 rendered during one pass: the debug expander's drained
messages (empty when the expander was not shown) and the Client Details
lines (empty when the section was not shown). -/
structure Tab2Output where
  displayedIssues : List String
  fields : List (String × String)
deriving DecidableEq, Repr

/-- One tab-2 render pass (lines 66-121) over the session state, given the
dropdown selection: populate the dropdown (line 71, may raise `KeyError`),
filter for the row (lines 81-88), drain the debug log only when a row was
found and the log is non-empty (lines 93-98), then run the Client Details
extraction (lines 101-121) when a row was found or the table is empty,
appending its diagnostics to the log.  The drain precedes the extraction, so
the drained messages are those accumulated before this pass.  An uncaught
exception aborts the pass (`Except.error`); the error carries the session
state as the dying script run leaves it — mutations already made persist,
so an extraction that raises mid-way keeps the diagnostics appended before
the raise. -/
def renderTab2 (s : AppState) (selected_name : String) :
    Except (String × AppState) (AppState × Tab2Output) :=
  match available_names s.masterlist with
  | Except.error e => Except.error (e, s)
  | Except.ok _ =>
    match selectRow s.masterlist selected_name with
    | Except.error e => Except.error (e, s)
    | Except.ok row =>
      let drained := row.isSome && !s.debug_issues.isEmpty
      let afterDrain := if drained then [] else s.debug_issues
      if row.isSome || s.masterlist.isEmpty then
        match (clientDetailsPass row).exc with
        | some e =>
          Except.error (e,
            ⟨s.masterlist, afterDrain ++ (clientDetailsPass row).diags⟩)
        | none =>
          Except.ok (⟨s.masterlist, afterDrain ++ (clientDetailsPass row).diags⟩,
            ⟨if drained then s.debug_issues else [], (clientDetailsPass row).fields⟩)
      else
        Except.ok (⟨s.masterlist, afterDrain⟩,
          ⟨if drained then s.debug_issues else [], []⟩)

/-- The session state at first launch: schema-only table, empty log. -/
def freshState : AppState := ⟨initMasterlist, []⟩

/-- The diagnostics the Client Details pass produces when no row is selected:
one missing-column message per `safe_get` call, in render order (Birthdate
logs once, as its falsy condition short-circuits the second call; the
Statement Minimum Payment line queries the misspelled key of line 116). -/
def missingAllMsgs : List String :=
  [missingMsg "Name", missingMsg "Account Key", missingMsg "Contract Number",
   missingMsg "Birthdate", missingMsg "Repayment Cycle", missingMsg "Delay Days",
   missingMsg "Currency Code", missingMsg "Total Outstanding",
   missingMsg "Statement Balance", missingMsg "Statement Minum Payment",
   missingMsg "Statement Overdue Amount", missingMsg "Installment Amount (01)",
   missingMsg "Installment Amount (02)", missingMsg "Email (01)",
   missingMsg "Residence Add"]

/-- The Client Details lines rendered against no row: every field shows its
default (`str` of it: `""`, `"0"` for Delay Days, `"0.0"` for the floats). -/
def freshFields : List (String × String) :=
  [("Name", ""), ("Account Key", ""), ("Contract Number", ""), ("Birthdate", ""),
   ("Repayment Cycle", ""), ("Delay Days", "0"), ("Currency Code", ""),
   ("Total Outstanding", "0.0"), ("Statement Balance", "0.0"),
   ("Statement Minimum Payment", "0.0"), ("Statement Overdue Amount", "0.0"),
   ("Installment Amount (01)", "0.0"), ("Installment Amount (02)", "0.0"),
   ("Email (01)", ""), ("Residence Add", "")]

/-- A one-row table whose only column is a populated Name. -/
def janeRec : Record := [("Name", Value.strV "Jane Doe")]

/-- The table holding just `janeRec`. -/
def dfJane : DataFrame := ⟨["Name"], [janeRec]⟩

/-- Session state with `dfJane` loaded and one stale diagnostic left in the
log by an earlier pass. -/
def staleState : AppState := ⟨dfJane, ["stale"]⟩

/-- The diagnostics of a Client Details pass over `janeRec`: every schema
field except Name is absent. -/
def janePassDiags : List String :=
  [missingMsg "Account Key", missingMsg "Contract Number", missingMsg "Birthdate",
   missingMsg "Repayment Cycle", missingMsg "Delay Days", missingMsg "Currency Code",
   missingMsg "Total Outstanding", missingMsg "Statement Balance",
   missingMsg "Statement Minum Payment", missingMsg "Statement Overdue Amount",
   missingMsg "Installment Amount (01)", missingMsg "Installment Amount (02)",
   missingMsg "Email (01)", missingMsg "Residence Add"]

/-- The Client Details lines rendered against `janeRec`. -/
def janeFields : List (String × String) :=
  [("Name", "Jane Doe"), ("Account Key", ""), ("Contract Number", ""),
   ("Birthdate", ""), ("Repayment Cycle", ""), ("Delay Days", "0"),
   ("Currency Code", ""), ("Total Outstanding", "0.0"),
   ("Statement Balance", "0.0"), ("Statement Minimum Payment", "0.0"),
   ("Statement Overdue Amount", "0.0"), ("Installment Amount (01)", "0.0"),
   ("Installment Amount (02)", "0.0"), ("Email (01)", ""), ("Residence Add", "")]

/-- The state after a pass on `staleState` with selection `"Jane"`: the stale
entry was drained and the pass's own diagnostics now sit in the log. -/
def staleState2 : AppState := ⟨dfJane, janePassDiags⟩

/-- The output of that pass: the drained stale entry was displayed, together
with the Client Details lines for Jane. -/
def janeOut : Tab2Output := ⟨["stale"], janeFields⟩

/-- A value whose sign bit can only be non-negative: the shape every Delay
Days extraction result is shown to have. -/
def isNonnegIntV : Value → Bool
  | Value.intV n => decide (0 ≤ n)
  | _ => false

lemma patCharMatch_nodot (p c : Char) (hp : (p == '.') = false) :
    patCharMatch true p c = patCharMatch false p c := by
  simp [patCharMatch, hp]

lemma matchHere_nodot (pat : List Char) (h : ∀ c ∈ pat, (c == '.') = false) :
    ∀ s, matchHere true pat s = matchHere false pat s := by
  induction pat with
  | nil => intro s; rfl
  | cons p ps ih =>
    intro s
    cases s with
    | nil => rfl
    | cons c cs =>
      have hp := h p (List.mem_cons_self p ps)
      simp only [matchHere, patCharMatch_nodot p c hp,
        ih (fun x hx => h x (List.mem_cons_of_mem p hx)) cs]

lemma searchCI_nodot (pat : List Char) (h : ∀ c ∈ pat, (c == '.') = false) :
    ∀ s, searchCI true pat s = searchCI false pat s := by
  intro s
  induction s with
  | nil => simpa using matchHere_nodot pat h []
  | cons c cs ih => simp only [searchCI, matchHere_nodot pat h, ih]

lemma contains_not_isEmpty (l : List String) (a : String)
    (h : l.contains a = true) : l.isEmpty = false := by
  cases l with
  | nil => simp [List.contains] at h
  | cons x xs => rfl

lemma parseUFloat_nonneg (cs : List Char) (d : Dec)
    (h : parseUFloat cs = some d) : 0 ≤ d.m := by
  unfold parseUFloat at h
  split at h
  · split at h
    · injection h with h; subst h; exact Int.ofNat_nonneg _
    · exact absurd h (by simp)
  · split at h
    · injection h with h; subst h; positivity
    · exact absurd h (by simp)
  · exact absurd h (by simp)

lemma parseFloat_nonneg_of_digitsDots (s : String)
    (hs : ∀ c ∈ s.data, pyIsDigit c = true ∨ c = '.') (d : Dec)
    (h : parseFloat s = some d) : 0 ≤ d.m := by
  unfold parseFloat at h
  split at h
  case _ rest heq =>
    have hm : '-' ∈ s.data := by rw [heq]; exact List.mem_cons_self _ _
    rcases hs '-' hm with h1 | h1 <;> exact absurd h1 (by decide)
  case _ rest heq =>
    have hm : '+' ∈ s.data := by rw [heq]; exact List.mem_cons_self _ _
    rcases hs '+' hm with h1 | h1 <;> exact absurd h1 (by decide)
  case _ =>
    exact parseUFloat_nonneg _ _ h

lemma Dec.trunc_nonneg (d : Dec) (h : 0 ≤ d.m) : 0 ≤ d.trunc :=
  Int.tdiv_nonneg h (Int.ofNat_nonneg _)

lemma delayDigits_chars (s : String) (h : delayDigits s = true) :
    ∀ c ∈ s.data, pyIsDigit c = true ∨ c = '.' := by
  intro c hc
  by_cases hdot : c = '.'
  · exact Or.inr hdot
  · left
    unfold delayDigits at h
    have hmem : c ∈ s.data.filter (fun c => decide (c ≠ '.')) :=
      List.mem_filter.mpr ⟨hc, by simpa using hdot⟩
    rcases Bool.and_eq_true_iff.mp h with ⟨-, hall⟩
    exact List.all_eq_true.mp hall c hmem

lemma pyDelayDays_shape (v : Value) (cv : Value)
    (h : pyDelayDays v = some cv) : ∃ k : Int, cv = Value.intV k ∧ 0 ≤ k := by
  unfold pyDelayDays at h
  split at h
  case isTrue hdig =>
    cases hp : parseFloat (pyStr v) with
    | none => rw [hp] at h; exact absurd h (by simp)
    | some dec =>
      rw [hp] at h
      simp only [Option.map_some'] at h
      injection h with h
      refine ⟨dec.trunc, h.symm, Dec.trunc_nonneg dec ?_⟩
      exact parseFloat_nonneg_of_digitsDots _ (delayDigits_chars _ hdig) _ hp
  case isFalse =>
    injection h with h
    exact ⟨0, h.symm, le_refl 0⟩

lemma applyFormat_none (cv : Value) : applyFormat none cv = cv := rfl

lemma applyFormat_delayDays (cv : Value) :
    applyFormat (some Convert.delayDaysC) cv = cv := rfl

lemma applyFormat_toDatetime (cv : Value) :
    applyFormat (some Convert.toDatetimeC) cv = cv := rfl

lemma nameMatches_eq_spec (q : String)
    (hlit : ∀ c ∈ q.data, isRegexMeta c = false) (r : Record) :
    nameMatches q r = specNameMatch q r := by
  have hdot : ∀ c ∈ q.data, (c == '.') = false := by
    intro c hc
    cases hbe : (c == '.') with
    | false => rfl
    | true =>
      exfalso
      have hm := hlit c hc
      unfold isRegexMeta at hm
      rw [hbe] at hm
      simp at hm
  cases hval : rowGet r "Name" with
  | strV s =>
    simp only [nameMatches, specNameMatch, hval, regexSearchCI, substringCI,
      searchCI_nodot q.data hdot]
  | intV n => simp only [nameMatches, specNameMatch, hval]
  | floatV d => simp only [nameMatches, specNameMatch, hval]
  | dateV y m d => simp only [nameMatches, specNameMatch, hval]
  | natT => simp only [nameMatches, specNameMatch, hval]
  | noneV => simp only [nameMatches, specNameMatch, hval]

/-- Claim C1 (corrected; counterexample): the Diagnostics Log is NOT cleared
after every completed display pass.  On a fresh session (empty table, empty
log) with no selection, the pass completes, renders the Client Details
section against no row, and ends with fifteen missing-column diagnostics
still sitting in the log — nothing was drained, and the log is not empty
after the pass. -/
theorem C1_log_survives_completed_pass :
    renderTab2 freshState ""
        = Except.ok (⟨initMasterlist, missingAllMsgs⟩, ⟨[], freshFields⟩)
      ∧ missingAllMsgs ≠ [] :=
  ⟨rfl, by simp [missingAllMsgs]⟩

/-- Claim C1 (amended): within one render pass the log is drained at most
once, and only when the lookup found a row while the log was non-empty; the
drained content is the log as accumulated BEFORE this pass (the drain
precedes the extraction), and the diagnostics of this pass's own extraction
are appended afterwards and remain in the log when the pass completes — a
pass only completes when the extraction raised no uncaught exception (an
unparseable Birthdate aborts it instead; see C6). -/
theorem C1_drain_before_extraction (s : AppState) (sel : String)
    (s2 : AppState) (out : Tab2Output) (row : Option Record)
    (h : renderTab2 s sel = Except.ok (s2, out))
    (hrow : selectRow s.masterlist sel = Except.ok row) :
    out.displayedIssues
        = (if row.isSome && !s.debug_issues.isEmpty then s.debug_issues else [])
      ∧ s2.debug_issues
        = (if row.isSome && !s.debug_issues.isEmpty then [] else s.debug_issues)
          ++ (if row.isSome || s.masterlist.isEmpty then (clientDetailsPass row).diags
              else [])
      ∧ s2.masterlist = s.masterlist
      ∧ ((row.isSome || s.masterlist.isEmpty) = true →
          (clientDetailsPass row).exc = none) := by
  unfold renderTab2 at h
  cases han : available_names s.masterlist with
  | error e => rw [han] at h; exact absurd h (by simp)
  | ok l =>
    simp only [han, hrow] at h
    split at h
    next hdo =>
      cases hexc : (clientDetailsPass row).exc with
      | some e => rw [hexc] at h; exact absurd h (by simp)
      | none =>
        rw [hexc] at h
        simp only [Except.ok.injEq, Prod.mk.injEq] at h
        obtain ⟨h1, h2⟩ := h
        refine ⟨?_, ?_, ?_, fun _ => rfl⟩
        · rw [← h2]
        · rw [← h1, if_pos hdo]
        · rw [← h1]
    next hdo =>
      simp only [Except.ok.injEq, Prod.mk.injEq] at h
      obtain ⟨h1, h2⟩ := h
      refine ⟨?_, ?_, ?_, fun hcontra => absurd hcontra hdo⟩
      · rw [← h2]
      · rw [← h1, if_neg hdo, List.append_nil]
      · rw [← h1]

/-- Witness for the amended C1: on `staleState` (Jane's table, one stale
diagnostic) with selection "Jane" the pass keeps the table unchanged. -/
theorem C1_drain_before_extraction_witness :
    staleState2.masterlist = staleState.masterlist :=
  (C1_drain_before_extraction staleState "Jane" staleState2 janeOut
    (some janeRec) rfl rfl).2.2.1

/-- Claim C2 (confirmed): `safe_get` is total — for every record (possibly
absent), key, default and coercion it returns a value together with at most
one appended diagnostic; a diagnostic is appended exactly when the returned
value fell back to the default, and on the success path (key present,
non-null, coercion succeeded) no diagnostic is appended and the returned
value is the (possibly formatted) coerced value. -/
theorem C2_extract_total (row : Option Record) (key : String)
    (default : Value) (convert : Option Convert) :
    (safe_get row key default convert).2.length ≤ 1
  ∧ ((safe_get row key default convert).2 ≠ [] →
      (safe_get row key default convert).1 = default)
  ∧ (∀ r, row = some r → rowHasKey r key = true →
      notna (rowGet r key) = true →
      ∀ cv, applyConvert convert (rowGet r key) = some cv →
        safe_get row key default convert = (applyFormat convert cv, []))
  ∧ ((safe_get row key default convert).2 = [] →
      ∃ r cv, row = some r ∧ rowHasKey r key = true
        ∧ notna (rowGet r key) = true
        ∧ applyConvert convert (rowGet r key) = some cv
        ∧ (safe_get row key default convert).1 = applyFormat convert cv) := by
  refine ⟨?_, ?_, ?_, ?_⟩
  · cases row with
    | none => simp [safe_get]
    | some r =>
      simp only [safe_get]
      split
      · split
        · split <;> simp
        · simp
      · simp
  · cases row with
    | none => intro _; rfl
    | some r =>
      simp only [safe_get]
      split
      · split
        · split
          · simp
          · intro _; rfl
        · intro _; rfl
      · intro _; rfl
  · rintro r rfl hk hna cv hcv
    simp [safe_get, hk, hna, hcv]
  · cases row with
    | none => simp [safe_get]
    | some r =>
      simp only [safe_get]
      split
      case isTrue hk =>
        split
        case isTrue hna =>
          split
          case _ cv hcv => intro _; exact ⟨r, cv, rfl, hk, hna, hcv, rfl⟩
          case _ hcv => simp
        case isFalse hna => simp
      case isFalse hk => simp

/-- Witness for C2: extracting an absent column returns the default. -/
theorem C2_extract_total_witness :
    (safe_get none "Statement Balance" (Value.floatV ⟨0, 1⟩)
      (some Convert.floatC)).1 = Value.floatV ⟨0, 1⟩ :=
  (C2_extract_total none "Statement Balance" (Value.floatV ⟨0, 1⟩)
    (some Convert.floatC)).2.1 (by simp [safe_get])

/-- Claim C3 (corrected; counterexample): the lookup does not implement
plain substring containment — the query is passed to `str.contains` with its
default `regex=True`.  With the single row named "abc" and the query "a.c",
no row's Name contains "a.c" as a substring, so the claim demands NotFound;
the code nevertheless returns the row, because `.` matches any character
under regex search. -/
theorem C3_regex_not_substring :
    selectRow ⟨["Name"], [[("Name", Value.strV "abc")]]⟩ "a.c"
        = Except.ok (some [("Name", Value.strV "abc")])
      ∧ substringCI "a.c" "abc" = false :=
  ⟨rfl, rfl⟩

/-- Claim C3 (amended): for every table carrying a Name column and every
non-empty query free of regex metacharacters, the lookup returns the first
row (in original order) whose Name is a string containing the query
case-insensitively, and NotFound (`none`) when no row matches — in
particular on an empty table.  Rows with a null/absent/non-string Name never
match.  (The empty query never reaches the filter — see C9 — and queries
with metacharacters are matched as regular expressions.) -/
theorem C3_lookup_first_literal_match (df : DataFrame) (q : String)
    (hq : (q == "") = false)
    (hlit : ∀ c ∈ q.data, isRegexMeta c = false)
    (hcol : df.cols.contains "Name" = true) :
    selectRow df q = Except.ok ((df.rows.filter (specNameMatch q)).head?) := by
  have hfil : df.rows.filter (nameMatches q) = df.rows.filter (specNameMatch q) :=
    List.filter_congr (fun r _ => nameMatches_eq_spec q hlit r)
  cases hemp : df.isEmpty with
  | true =>
    have hcols : df.cols.isEmpty = false := contains_not_isEmpty _ _ hcol
    have hrows : df.rows = [] := by
      unfold DataFrame.isEmpty at hemp
      rw [hcols, Bool.or_false] at hemp
      simpa using hemp
    simp [selectRow, hemp, hrows]
  | false =>
    have hmem : "Name" ∈ df.cols := by simpa using hcol
    simp [selectRow, hq, hemp, filterByName, hmem, hfil, Except.map]

/-- Witness for the amended C3: querying "jane" over Jane's table finds the
first (only) row. -/
theorem C3_lookup_first_literal_match_witness :
    selectRow dfJane "jane"
      = Except.ok ((dfJane.rows.filter (specNameMatch "jane")).head?) :=
  C3_lookup_first_literal_match dfJane "jane" (by decide) (by decide) (by decide)

/-- Claim C4 (confirmed): the upload handler is total and atomic — a
non-empty parsed table replaces the current table exactly (the state becomes
the parsed frame itself: no merging, no column drops, no reordering); a
zero-row parse leaves the table untouched with the empty-input warning; a
parse failure leaves the table untouched with a load-error status carrying
the cause. -/
theorem C4_load_total_atomic (cur df : DataFrame) (e : String) :
    (df.isEmpty = false →
      uploadHandler cur (Except.ok df) = (df, LoadResult.success))
  ∧ (df.isEmpty = true →
      uploadHandler cur (Except.ok df) = (cur, LoadResult.emptyInput))
  ∧ uploadHandler cur (Except.error e)
      = (cur, LoadResult.loadError ("Error loading XLSX: " ++ e)) := by
  refine ⟨?_, ?_, rfl⟩ <;> intro h <;> simp [uploadHandler, h]

/-- Witness for C4: loading Jane's table over the fresh schema-only table
replaces it wholesale. -/
theorem C4_load_total_atomic_witness :
    uploadHandler initMasterlist (Except.ok dfJane)
      = (dfJane, LoadResult.success) :=
  (C4_load_total_atomic initMasterlist dfJane "").1 (by decide)

/-- Claim C6 (corrected; counterexample): on an unparseable Birthdate the
code neither falls back to the empty-string default nor records a
diagnostic — it raises.  `pd.to_datetime(..., errors='coerce')` returns
`NaT` without a diagnostic, `bool(pd.NaT)` is `True`, and `NaT.strftime`
raises `ValueError`, an uncaught exception that aborts the render pass. -/
theorem C6_bad_date_no_diagnostic :
    birthdateDisplay (some [("Birthdate", Value.strV "not a date")])
      = ⟨"", [], some "ValueError: NaTType does not support strftime"⟩ := rfl

/-- Claim C6 (amended): Birthdate extraction parses the raw string as a date
and on success renders it `YYYY-MM-DD` with no diagnostic ("1990-05-03"
round-trips).  On parse failure the `errors='coerce'` lambda yields `NaT`
with no diagnostic; `NaT` is truthy, so the line evaluates `NaT.strftime`,
which raises an uncaught `ValueError` that aborts the render pass — there is
no fallback to the default and no diagnostic is recorded. -/
theorem C6_birthdate_roundtrip (r : Record) (s : String) (y m d : Nat)
    (hk : rowHasKey r "Birthdate" = true)
    (hv : rowGet r "Birthdate" = Value.strV s) :
    (parseISO s = some (y, m, d) →
      birthdateDisplay (some r) = ⟨formatYMD y m d, [], none⟩)
  ∧ (parseISO s = none →
      birthdateDisplay (some r)
        = ⟨"", [], some "ValueError: NaTType does not support strftime"⟩)
  ∧ parseISO "1990-05-03" = some (1990, 5, 3)
  ∧ formatYMD 1990 5 3 = "1990-05-03"
  ∧ parseISO "not a date" = none := by
  refine ⟨?_, ?_, by decide, rfl, by decide⟩
  · intro hp
    simp [birthdateDisplay, safe_get, hk, hv, applyConvert, pyToDatetime, hp,
      applyFormat_toDatetime, pyTruthy, strftimeExc, notna]
  · intro hp
    simp [birthdateDisplay, safe_get, hk, hv, applyConvert, pyToDatetime, hp,
      applyFormat_toDatetime, pyTruthy, strftimeExc, notna]

/-- Witness for the amended C6: the concrete ISO round-trip. -/
theorem C6_birthdate_roundtrip_witness :
    birthdateDisplay (some [("Birthdate", Value.strV "1990-05-03")])
      = ⟨formatYMD 1990 5 3, [], none⟩ :=
  (C6_birthdate_roundtrip [("Birthdate", Value.strV "1990-05-03")]
    "1990-05-03" 1990 5 3 (by decide) (by decide)).1 (by decide)

/-- Claim C7 (corrected; counterexample): the missing-field diagnostic text
is "Missing column '<fieldName>'", not the "Missing field '<fieldName>'" the
claim states (source line 22). -/
theorem C7_message_says_column :
    (safe_get none "Statement Balance" (Value.floatV ⟨0, 1⟩)
        (some Convert.floatC)).2 = [missingMsg "Statement Balance"]
      ∧ missingMsg "Statement Balance"
        ≠ "Missing field " ++ sglq ++ "Statement Balance" ++ sglq :=
  ⟨rfl, by decide⟩

/-- Claim C7 (amended): whenever the record is absent or the key is not
among its fields, `safe_get` returns the default together with exactly the
diagnostic "Missing column '<fieldName>'" (with the concrete field name
substituted). -/
theorem C7_missing_column_message (row : Option Record) (key : String)
    (default : Value) (convert : Option Convert)
    (h : row = none ∨ ∃ r, row = some r ∧ rowHasKey r key = false) :
    safe_get row key default convert = (default, [missingMsg key]) := by
  rcases h with rfl | ⟨r, rfl, hk⟩
  · rfl
  · simp [safe_get, hk]

/-- Witness for the amended C7: the Statement Balance example. -/
theorem C7_missing_column_message_witness :
    safe_get none "Statement Balance" (Value.floatV ⟨0, 1⟩)
        (some Convert.floatC)
      = (Value.floatV ⟨0, 1⟩, [missingMsg "Statement Balance"]) :=
  C7_missing_column_message none "Statement Balance" (Value.floatV ⟨0, 1⟩)
    (some Convert.floatC) (Or.inl rfl)

/-- Claim C8 (corrected; counterexample): not every error is contained.  On
a non-empty table without a 'Name' column, populating the name dropdown
(line 71) accesses `masterlist['Name']` directly and raises an uncaught
`KeyError` — the pass does not complete with diagnostics. -/
theorem C8_keyerror_escapes :
    available_names ⟨["X"], [[("X", Value.strV "1")]]⟩
      = Except.error "KeyError: Name" := rfl

/-- Claim C8 (amended): the upload handler and `safe_get` contain their
errors, but name-list retrieval and the lookup filter do not: on every
non-empty table lacking a 'Name' column both raise an uncaught `KeyError`
instead of completing with missing-field diagnostics or status text. -/
theorem C8_keyerror_on_missing_name (df : DataFrame) (q : String)
    (hne : df.isEmpty = false) (hcol : df.cols.contains "Name" = false)
    (hq : (q == "") = false) :
    available_names df = Except.error "KeyError: Name"
      ∧ selectRow df q = Except.error "KeyError: Name" := by
  have hmem : "Name" ∉ df.cols := by simpa using hcol
  constructor
  · simp [available_names, hne, hmem]
  · simp [selectRow, filterByName, hq, hne, hmem, Except.map]

/-- Witness for the amended C8: the one-column table without a Name. -/
theorem C8_keyerror_on_missing_name_witness :
    available_names ⟨["X"], [[("X", Value.strV "2")]]⟩
      = Except.error "KeyError: Name" :=
  (C8_keyerror_on_missing_name ⟨["X"], [[("X", Value.strV "2")]]⟩ "j"
    (by decide) (by decide) (by decide)).1

/-- Claim C9 (corrected; counterexample): the empty query does not return
the first row with a non-null Name — the guard `if active_search` is falsy
on the empty string, so the lookup is skipped entirely and no row is
selected, even though Jane's table has a matching first row. -/
theorem C9_empty_query_no_row :
    selectRow ⟨["Name"], [[("Name", Value.strV "Jane Doe")]]⟩ ""
        = Except.ok none
      ∧ notna (rowGet [("Name", Value.strV "Jane Doe")] "Name") = true :=
  ⟨rfl, rfl⟩

/-- Claim C9 (amended): the empty query is defined behavior, but it selects
nothing: for every table, the empty selection short-circuits the guard and
the lookup reports no row (it never reaches the substring filter). -/
theorem C9_empty_query_skips_lookup (df : DataFrame) :
    selectRow df "" = Except.ok none := by
  simp [selectRow]

/-- Claim C10 (corrected; counterexample): the "any character other than
0-9 and '.' yields 0" part is false, because Python's `str.isdigit` and
`float()` accept Unicode decimal digits: the Arabic-Indic digit three
(U+0663, not one of 0-9 in the claim's sense — Lean's ASCII `Char.isDigit`
rejects it) passes the guard, `float()` parses it, and the coercion yields
3, not 0. -/
theorem C10_unicode_digit_not_zero :
    pyDelayDays (Value.strV "٣") = some (Value.intV 3)
  ∧ Char.isDigit '٣' = false
  ∧ (3 : Int) ≠ 0 :=
  ⟨rfl, rfl, by decide⟩

/-- Claim C10 (amended): the Delay Days coercion never yields a negative
integer, but the guard accepts every Unicode digit, not only 0-9.  A raw
value whose string form contains a character that is neither a Unicode
digit nor '.' (such as "-5") coerces to 0; "12.9" truncates toward zero to
12; a Unicode decimal digit parses to its value ("٣" yields 3, not 0); an
isdigit-passing but unparsable string such as "²" makes `float()` raise, so
the extraction falls back to the default 0 with an "Invalid format"
diagnostic; every successful coercion yields a non-negative integer; and
the full extraction with default 0 always returns a non-negative integer
value. -/
theorem C10_delay_days_never_negative (s : String) (c : Char) (v : Value)
    (n : Int) (hc : c ∈ s.data) (hd : pyIsDigit c = false)
    (hdot : (c == '.') = false) :
    pyDelayDays (Value.strV s) = some (Value.intV 0)
  ∧ pyDelayDays (Value.strV "12.9") = some (Value.intV 12)
  ∧ pyDelayDays (Value.strV "٣") = some (Value.intV 3)
  ∧ safe_get (some [("Delay Days", Value.strV "²")]) "Delay Days"
      (Value.intV 0) (some Convert.delayDaysC)
      = (Value.intV 0, [invalidMsg "Delay Days" (Value.strV "²")])
  ∧ (pyDelayDays v = some (Value.intV n) → 0 ≤ n)
  ∧ (∀ row key, isNonnegIntV
      (safe_get row key (Value.intV 0) (some Convert.delayDaysC)).1 = true) := by
  refine ⟨?_, by decide, rfl, rfl, ?_, ?_⟩
  · have hne : c ≠ '.' := by simpa using hdot
    have hmem : c ∈ s.data.filter (fun x => decide (x ≠ '.')) :=
      List.mem_filter.mpr ⟨hc, by simpa using hne⟩
    cases hall : (s.data.filter fun x => decide (x ≠ '.')).all pyIsDigit with
    | true => exact absurd (List.all_eq_true.mp hall c hmem) (by simp [hd])
    | false =>
      have hdig : delayDigits s = false := by
        simp only [delayDigits, pyStr]
        rw [hall, Bool.and_false]
      simp [pyDelayDays, pyStr, hdig]
  · intro h
    obtain ⟨k, hk, hpos⟩ := pyDelayDays_shape v _ h
    injection hk with hk
    rw [hk]
    exact hpos
  · intro row key
    cases row with
    | none => rfl
    | some r =>
      simp only [safe_get]
      split
      case isTrue hk =>
        split
        case isTrue hna =>
          cases hap : applyConvert (some Convert.delayDaysC) (rowGet r key) with
          | none => simp [hap, isNonnegIntV]
          | some cv =>
            obtain ⟨k, rfl, hpos⟩ := pyDelayDays_shape (rowGet r key) cv hap
            simp [hap, applyFormat_delayDays, isNonnegIntV, hpos]
        case isFalse hna => rfl
      case isFalse hk => rfl

/-- Witness for the amended C10: the raw value "-5" coerces to 0. -/
theorem C10_delay_days_never_negative_witness :
    pyDelayDays (Value.strV "-5") = some (Value.intV 0) :=
  (C10_delay_days_never_negative "-5" '-' Value.noneV 0
    (by decide) (by decide) (by decide)).1
